import Mathlib

/-!
Shallow embedding of the RTSP fan-out server core (the deduplicated
variant: the stream manager with the `closed` flag, the drop-oldest
frame pipe, the health monitor, and the gin handlers in the `server`
package).  Go structs become Lean structures, Go maps become
association lists, channels become lists plus a closed flag, and the
goroutine bodies become explicit step functions on those states.
Machine integers (Go `int`) are modelled as `Int`; counters as `Nat`.
-/

namespace RTSP

/-- A raw BGR24 frame: an opaque byte sequence. -/
abbrev Frame := List Nat

/-- Capacity of the per-stream frame pipe (`make(chan []byte, 100)`). -/
def frameBufferCap : Nat := 100

/-- Capacity of each client send queue (`make(chan []byte, 10)`). -/
def clientSendCap : Nat := 10

/-- FFmpeg restart delay in milliseconds (`time.Sleep(2 * time.Second)`). -/
def restartDelayMs : Nat := 2000

/-- Health check interval in seconds (`healthCheckInterval = 5 * time.Second`). -/
def healthCheckIntervalS : Nat := 5

/-- Maximum stall duration in nanoseconds (`maxStallDuration = 10 * time.Second`). -/
def maxStallDurationNs : Nat := 10 * 1000000000

/-- Frame request timeout in seconds (`time.After(5 * time.Second)` in handleGetFrame). -/
def frameRequestTimeoutS : Nat := 5

/-- Per-client state.  `send` is the buffered channel contents, `sendClosed`
records whether `close(client.send)` ran, and `sendCloseCount` counts how many
times `close(client.send)` was executed (in Go a second close panics, so the
count is the observable of the no-double-close invariant).  `closed` is the
flag guarded by `client.mu`. -/
structure Client where
  id : String
  streamID : String
  send : List Frame
  sendClosed : Bool
  sendCloseCount : Nat
  closed : Bool
  connClosed : Bool
  deriving Repr, DecidableEq

/-- Per-stream state, following the Go `Stream` struct.  The `frameBuffer`
channel is a list (front = oldest) plus a closed flag.  `clients` holds the
ids of the clients registered in `stream.clients`; the client objects
themselves live in the manager's heap so that the two maps alias the same
client, as Go pointers do.  `cancelGen` numbers the current cancellation
context and `firedCancels` records which generations had their cancel fired. -/
structure Stream where
  rtspURL : String
  streamID : String
  frameBuffer : List Frame
  frameBufferClosed : Bool
  clients : List String
  isRunning : Bool
  lastFrameTimeNs : Nat
  frameCount : Nat
  cancelGen : Nat
  firedCancels : List Nat
  healthStopClosed : Bool
  deriving Repr, DecidableEq

/-- The manager, following the Go `StreamManager` struct.  `clientHeap` is
the heap of client objects keyed by client id; `streams` maps stream id to
stream; `clientsMirror` is the registry-level mirror `sm.clients`, mapping
stream id to the list of client ids. -/
structure StreamManager where
  streams : List (String × Stream)
  clientHeap : List (String × Client)
  clientsMirror : List (String × List String)
  clientIDGen : Nat
  deriving Repr, DecidableEq

/-- Association list lookup (Go map read). -/
def alookup {α : Type} (l : List (String × α)) (k : String) : Option α :=
  match l with
  | [] => none
  | (k', v) :: rest => if k' = k then some v else alookup rest k

/-- Association list insert-or-replace (Go map write). -/
def aset {α : Type} (l : List (String × α)) (k : String) (v : α) :
    List (String × α) :=
  match l with
  | [] => [(k, v)]
  | (k', v') :: rest => if k' = k then (k, v) :: rest else (k', v') :: aset rest k v

/-- Association list delete (Go `delete`). -/
def adel {α : Type} (l : List (String × α)) (k : String) : List (String × α) :=
  match l with
  | [] => []
  | (k', v') :: rest => if k' = k then adel rest k else (k', v') :: adel rest k

/-- A freshly created stream, as built by `StartStream`. -/
def newStream (streamID rtspURL : String) : Stream :=
  { rtspURL := rtspURL
    streamID := streamID
    frameBuffer := []
    frameBufferClosed := false
    clients := []
    isRunning := false
    lastFrameTimeNs := 0
    frameCount := 0
    cancelGen := 0
    firedCancels := []
    healthStopClosed := false }

/-- The goroutines `StartStream` launches for the new stream: the ingestor
(`runFFmpegStream`), the broadcaster (`distributeFrames`) and the health
monitor (`monitorStreamHealth`), the first and last with the requested
width and height. -/
inductive LaunchedTask where
  | runFFmpeg (streamID : String) (width height : Int)
  | distribute (streamID : String)
  | monitorHealth (streamID : String) (width height : Int)
  deriving Repr, DecidableEq

/-- `StartStream(streamID, rtspURL, width, height)`: error if the id is
taken, otherwise insert the fresh stream and mirror entry and launch the
three tasks. -/
def StartStream (sm : StreamManager) (streamID rtspURL : String)
    (width height : Int) :
    Except String (StreamManager × List LaunchedTask) :=
  match alookup sm.streams streamID with
  | some _ => .error ("stream " ++ streamID ++ " already exists")
  | none =>
      .ok ({ sm with
              streams := aset sm.streams streamID (newStream streamID rtspURL)
              clientsMirror := aset sm.clientsMirror streamID [] },
           [LaunchedTask.runFFmpeg streamID width height,
            LaunchedTask.distribute streamID,
            LaunchedTask.monitorHealth streamID width height])

/-- One successful frame read in `startFFmpeg`: non-blocking send into
`frameBuffer`; if full, a single non-blocking receive drops the oldest
queued frame (skipped if the pipe is momentarily empty, the inner
`default` branch) and the new frame is then sent; in both branches
`lastFrameTime` is set to now and `frameCount` is incremented. -/
def ingestFrame (s : Stream) (f : Frame) (nowNs : Nat) : Stream :=
  if s.frameBuffer.length < frameBufferCap then
    { s with frameBuffer := s.frameBuffer ++ [f]
             lastFrameTimeNs := nowNs
             frameCount := s.frameCount + 1 }
  else
    let buf := if s.frameBuffer.isEmpty then s.frameBuffer else s.frameBuffer.drop 1
    { s with frameBuffer := buf ++ [f]
             lastFrameTimeNs := nowNs
             frameCount := s.frameCount + 1 }

/-- How one invocation of `startFFmpeg` plays out, resolving the external
nondeterminism (pipe creation, `cmd.Start()`, and the sequence of frame
reads with their wall-clock times, ended by a read error, EOF, or context
cancellation). -/
inductive FFmpegRun where
  | stdoutPipeErr
  | stderrPipeErr
  | startErr
  | reads (frames : List (Nat × Frame)) (canceled : Bool)
  deriving Repr, DecidableEq

/-- The Go slice allocation `make([]byte, n)` for an `int` length: panics
(returns `none`) when `n` is negative, otherwise yields a zeroed buffer of
length `n`. -/
def makeSlice (n : Int) : Option (List Nat) :=
  if n < 0 then none else some (List.replicate n.toNat 0)

/-- The frame byte size computed by `startFFmpeg`: `width * height * 3`. -/
def frameSize (width height : Int) : Int := width * height * 3

/-- One invocation of `startFFmpeg` on a stream: on a pipe-creation error it
returns an error with the stream untouched; otherwise it sets
`isRunning := true` under `stream.mu` and only then attempts `cmd.Start()`,
so a start failure leaves `isRunning = true`.  When the process runs, each
read frame goes through `ingestFrame`; the function returns an error unless
it exited via cancellation (`ctx.Done`, which kills the process and returns
nil).  The returned Bool is true when `startFFmpeg` returned a non-nil
error. -/
def startFFmpeg (s : Stream) (run : FFmpegRun) : Stream × Bool :=
  match run with
  | .stdoutPipeErr => (s, true)
  | .stderrPipeErr => (s, true)
  | .startErr => ({ s with isRunning := true }, true)
  | .reads frames canceled =>
      let s1 := { s with isRunning := true }
      let s2 := frames.foldl (fun st p => ingestFrame st p.2 p.1) s1
      (s2, !canceled)

/-- State of the `runFFmpegStream` retry loop: how many `startFFmpeg`
attempts ran, the total milliseconds slept in the retry branch, and whether
the loop has returned. -/
structure IngestLoop where
  attempts : Nat
  sleptMs : Nat
  exited : Bool
  deriving Repr, DecidableEq

/-- One iteration of the `for`/`select` loop of `runFFmpegStream`:
if the context is canceled the loop returns; otherwise it runs
`startFFmpeg` once and, when that returned an error, sleeps `restartDelayMs`
before looping.  There is no retry counter and no cap. -/
def ingestLoopStep (st : IngestLoop) (ctxDone : Bool) (attemptErr : Bool) :
    IngestLoop :=
  if st.exited then st
  else if ctxDone then { st with exited := true }
  else if attemptErr then
    { st with attempts := st.attempts + 1, sleptMs := st.sleptMs + restartDelayMs }
  else
    { st with attempts := st.attempts + 1 }

/-- Run the retry loop over a list of iterations, each giving the
context-done flag seen by the `select` and whether the `startFFmpeg`
attempt of that iteration failed. -/
def ingestLoopRun (iters : List (Bool × Bool)) : IngestLoop :=
  iters.foldl (fun st p => ingestLoopStep st p.1 p.2)
    { attempts := 0, sleptMs := 0, exited := false }

/-- The `close(client.send)` preceded by the guarded false-to-true flip of
`closed` under `client.mu`, as both `RemoveClient` and `StopStream` perform
it: a no-op when `closed` already holds. -/
def closeClientOnce (c : Client) : Client :=
  if c.closed then c
  else { c with closed := true, sendClosed := true,
                sendCloseCount := c.sendCloseCount + 1 }

/-- `RemoveClient(client)`: under `sm.mu` then `client.mu`, if the client is
already closed return immediately (no close, no registry mutation);
otherwise flip `closed`, delete the id from the stream's `clients` map and
from the registry mirror, and close the send channel. -/
def RemoveClient (sm : StreamManager) (cid : String) : StreamManager :=
  match alookup sm.clientHeap cid with
  | none => sm
  | some c =>
      if c.closed then sm
      else
        let streams1 :=
          match alookup sm.streams c.streamID with
          | some st =>
              aset sm.streams c.streamID { st with clients := st.clients.erase cid }
          | none => sm.streams
        let mirror1 :=
          match alookup sm.clientsMirror c.streamID with
          | some ids => aset sm.clientsMirror c.streamID (ids.erase cid)
          | none => sm.clientsMirror
        { sm with
            clientHeap := aset sm.clientHeap cid (closeClientOnce c)
            streams := streams1
            clientsMirror := mirror1 }

/-- What `StopStream` does to the stream object itself before removing it
from the registry: fire the current cancel (killing the subprocess), close
`healthStopChan`, and (after the 100 ms grace wait) close the frame
buffer.  Connected handlers still holding a pointer to the stream observe
these mutations. -/
def stopStreamObject (st : Stream) : Stream :=
  { st with
      firedCancels := st.firedCancels ++ [st.cancelGen]
      healthStopClosed := true
      frameBufferClosed := true }

/-- The per-client body of the `StopStream` disconnect loop: flip `closed`
false-to-true under `client.mu` and close the send channel (a no-op when
already closed), then close the transport connection unconditionally. -/
def disconnectClient (h : List (String × Client)) (cid : String) :
    List (String × Client) :=
  match alookup h cid with
  | none => h
  | some c => aset h cid { closeClientOnce c with connClosed := true }

/-- `StopStream(streamID)`: error if unknown; otherwise fire the current
cancel, close `healthStopChan`, wait 100 ms, close the frame buffer,
disconnect every client listed in the registry mirror (guarded
false-to-true flip of `closed` before `close(client.send)`, then
`client.conn.Close()`), and delete the stream from both maps. -/
def StopStream (sm : StreamManager) (streamID : String) :
    Except String StreamManager :=
  match alookup sm.streams streamID with
  | none => .error ("stream " ++ streamID ++ " not found")
  | some st =>
      let stStopped := stopStreamObject st
      let ids := (alookup sm.clientsMirror streamID).getD []
      let heap1 := ids.foldl disconnectClient sm.clientHeap
      .ok { sm with
              streams := adel (aset sm.streams streamID stStopped) streamID
              clientsMirror := adel sm.clientsMirror streamID
              clientHeap := heap1 }

/-- `AddClient(streamID, conn)`: error if the stream is unknown; otherwise
allocate the next client id (`client_%d` with the pre-incremented counter),
build the client with an empty capacity-10 send queue, insert it into the
stream's `clients` map and the registry mirror, and launch its pumps.
Returns the new client's id. -/
def AddClient (sm : StreamManager) (streamID : String) :
    Except String (StreamManager × String) :=
  match alookup sm.streams streamID with
  | none => .error ("stream " ++ streamID ++ " not found")
  | some st =>
      let gen := sm.clientIDGen + 1
      let cid := "client_" ++ toString gen
      let c : Client :=
        { id := cid, streamID := streamID, send := [], sendClosed := false
          sendCloseCount := 0, closed := false, connClosed := false }
      .ok ({ sm with
              clientIDGen := gen
              streams := aset sm.streams streamID { st with clients := st.clients ++ [cid] }
              clientsMirror :=
                aset sm.clientsMirror streamID
                  (((alookup sm.clientsMirror streamID).getD []) ++ [cid])
              clientHeap := aset sm.clientHeap cid c }, cid)

/-- Events delivered to the `monitorStreamHealth` select loop. -/
inductive MonitorEvent where
  | healthStop
  | tick (nowNs : Nat)
  deriving Repr, DecidableEq

/-- Side effects of one monitor iteration. -/
inductive MonitorAction where
  | fireCancel (gen : Nat)
  | relaunchIngest (streamID : String) (width height : Int)
  deriving Repr, DecidableEq

/-- One iteration of `monitorStreamHealth` for a monitor launched with the
given width and height: a `healthStopChan` signal terminates the loop; on a
ticker tick it reads `lastFrameTime` and `isRunning` under a read lock and,
when running and stalled longer than `maxStallDuration`, fires the current
cancel, installs a fresh cancel, marks `isRunning := false` and relaunches
`runFFmpegStream` with the same width and height.  The Bool is true when
the monitor returned. -/
def monitorStep (width height : Int) (s : Stream) (e : MonitorEvent) :
    Stream × List MonitorAction × Bool :=
  match e with
  | .healthStop => (s, [], true)
  | .tick nowNs =>
      if s.isRunning ∧ nowNs - s.lastFrameTimeNs > maxStallDurationNs then
        ({ s with
             firedCancels := s.firedCancels ++ [s.cancelGen]
             cancelGen := s.cancelGen + 1
             isRunning := false },
         [MonitorAction.fireCancel s.cancelGen,
          MonitorAction.relaunchIngest s.streamID width height], false)
      else (s, [], false)

/-- Two to the thirty-second power, the modulus of 32-bit words. -/
def m32 : Nat := 4294967296

/-- 32-bit addition. -/
def add32 (a b : Nat) : Nat := (a + b) % m32

/-- 32-bit complement. -/
def not32 (a : Nat) : Nat := a ^^^ (m32 - 1)

/-- 32-bit left rotation. -/
def rotl32 (x n : Nat) : Nat := ((x <<< n) ||| (x >>> (32 - n))) % m32

/-- The MD5 per-round left-rotation amounts. -/
def md5s : List Nat :=
  [7, 12, 17, 22, 7, 12, 17, 22, 7, 12, 17, 22, 7, 12, 17, 22,
   5, 9, 14, 20, 5, 9, 14, 20, 5, 9, 14, 20, 5, 9, 14, 20,
   4, 11, 16, 23, 4, 11, 16, 23, 4, 11, 16, 23, 4, 11, 16, 23,
   6, 10, 15, 21, 6, 10, 15, 21, 6, 10, 15, 21, 6, 10, 15, 21]

/-- The MD5 sine-derived additive constants. -/
def md5K : List Nat :=
  [3614090360, 3905402710, 606105819, 3250441966,
   4118548399, 1200080426, 2821735955, 4249261313,
   1770035416, 2336552879, 4294925233, 2304563134,
   1804603682, 4254626195, 2792965006, 1236535329,
   4129170786, 3225465664, 643717713, 3921069994,
   3593408605, 38016083, 3634488961, 3889429448,
   568446438, 3275163606, 4107603335, 1163531501,
   2850285829, 4243563512, 1735328473, 2368359562,
   4294588738, 2272392833, 1839030562, 4259657740,
   2763975236, 1272893353, 4139469664, 3200236656,
   681279174, 3936430074, 3572445317, 76029189,
   3654602809, 3873151461, 530742520, 3299628645,
   4096336452, 1126891415, 2878612391, 4237533241,
   1700485571, 2399980690, 4293915773, 2240044497,
   1873313359, 4264355552, 2734768916, 1309151649,
   4149444226, 3174756917, 718787259, 3951481745]

/-- The MD5 mixing function of round `i`. -/
def md5F (i b c d : Nat) : Nat :=
  if i < 16 then (b &&& c) ||| (not32 b &&& d)
  else if i < 32 then (d &&& b) ||| (not32 d &&& c)
  else if i < 48 then b ^^^ c ^^^ d
  else c ^^^ (b ||| not32 d)

/-- The MD5 message-word index of round `i`. -/
def md5g (i : Nat) : Nat :=
  if i < 16 then i
  else if i < 32 then (5 * i + 1) % 16
  else if i < 48 then (3 * i + 5) % 16
  else (7 * i) % 16

/-- Little-endian decoding of the first four bytes of a list. -/
def leWord (bytes : List Nat) : Nat :=
  bytes.getD 0 0 + 256 * bytes.getD 1 0 + 65536 * bytes.getD 2 0 +
    16777216 * bytes.getD 3 0

/-- The sixteen little-endian 32-bit words of a 64-byte chunk. -/
def chunkWords (chunk : List Nat) : List Nat :=
  (List.range 16).map (fun j => leWord ((chunk.drop (4 * j)).take 4))

/-- One of the 64 MD5 rounds over the running (a, b, c, d) state. -/
def md5Round (M : List Nat) (st : Nat × Nat × Nat × Nat) (i : Nat) :
    Nat × Nat × Nat × Nat :=
  let f := add32 (add32 (add32 (md5F i st.2.1 st.2.2.1 st.2.2.2) st.1)
    (md5K.getD i 0)) (M.getD (md5g i) 0)
  (st.2.2.2, add32 st.2.1 (rotl32 f (md5s.getD i 0)), st.2.1, st.2.2.1)

/-- Absorb one 64-byte chunk into the MD5 state. -/
def md5Chunk (st : Nat × Nat × Nat × Nat) (chunk : List Nat) :
    Nat × Nat × Nat × Nat :=
  let M := chunkWords chunk
  let r := (List.range 64).foldl (md5Round M) st
  (add32 st.1 r.1, add32 st.2.1 r.2.1, add32 st.2.2.1 r.2.2.1,
   add32 st.2.2.2 r.2.2.2)

/-- Little-endian encoding of `n` on `count` bytes. -/
def leBytes (n count : Nat) : List Nat :=
  (List.range count).map (fun i => (n >>> (8 * i)) % 256)

/-- MD5 padding: a 0x80 byte, zeros up to 56 mod 64, then the bit length on
eight little-endian bytes. -/
def md5Pad (msg : List Nat) : List Nat :=
  let r := (msg.length + 1) % 64
  let k := (120 - r) % 64
  msg ++ [128] ++ List.replicate k 0 ++ leBytes (8 * msg.length) 8

/-- The 16-byte MD5 digest of a byte sequence. -/
def md5Digest (msg : List Nat) : List Nat :=
  let padded := md5Pad msg
  let chunks := (List.range (padded.length / 64)).map
    (fun i => (padded.drop (64 * i)).take 64)
  let r := chunks.foldl md5Chunk (1732584193, 4023233417, 2562383102, 271733878)
  leBytes r.1 4 ++ leBytes r.2.1 4 ++ leBytes r.2.2.1 4 ++ leBytes r.2.2.2 4

/-- Lowercase hexadecimal digit. -/
def hexDigitChar (n : Nat) : Char :=
  if n < 10 then Char.ofNat (48 + n) else Char.ofNat (87 + n)

/-- Two lowercase hex digits of a byte. -/
def byteHex (b : Nat) : List Char :=
  [hexDigitChar (b / 16), hexDigitChar (b % 16)]

/-- Lowercase hex string of an MD5 digest, as Go's `%x` prints it. -/
def md5Hex (msg : List Nat) : String :=
  String.mk ((md5Digest msg).map byteHex).flatten

/-- UTF-8 encoding of one character, as Go's `[]byte(string)` produces. -/
def utf8EncodeChar (c : Char) : List Nat :=
  let n := c.toNat
  if n < 128 then [n]
  else if n < 2048 then [192 ||| (n >>> 6), 128 ||| (n &&& 63)]
  else if n < 65536 then
    [224 ||| (n >>> 12), 128 ||| ((n >>> 6) &&& 63), 128 ||| (n &&& 63)]
  else
    [240 ||| (n >>> 18), 128 ||| ((n >>> 12) &&& 63),
     128 ||| ((n >>> 6) &&& 63), 128 ||| (n &&& 63)]

/-- UTF-8 bytes of a string. -/
def utf8Bytes (s : String) : List Nat :=
  (s.data.map utf8EncodeChar).flatten

/-- The stream id derived by `handleStartStreamWithURL`: the first 16 bytes
of `stream_` followed by the 32 lowercase hex digits of the MD5 of the
URL's bytes. -/
def deriveStreamID (rtspURL : String) : String :=
  (("stream_" ++ md5Hex (utf8Bytes rtspURL)).take 16)

/-- A JSON value as the handlers emit them (strings and integers). -/
inductive JsonVal where
  | str (s : String)
  | num (n : Int)
  deriving Repr, DecidableEq

/-- A handler response body: a JSON object, raw binary data with its
content type, or nothing (`c.Status`). -/
inductive RespBody where
  | json (fields : List (String × JsonVal))
  | bin (contentType : String) (payload : Frame)
  | empty
  deriving Repr, DecidableEq

/-- An HTTP response: status code, extra headers, body. -/
structure Response where
  status : Nat
  headers : List (String × String)
  body : RespBody
  deriving Repr, DecidableEq

/-- A JSON response with no extra headers. -/
def jsonResp (status : Nat) (fields : List (String × JsonVal)) : Response :=
  { status := status, headers := [], body := RespBody.json fields }

/-- The request body of `POST /api/streams` after binding (both required
fields present). -/
structure StartReq where
  streamID : String
  rtspURL : String
  width : Int
  height : Int
  deriving Repr, DecidableEq

/-- `handleStartStream`: default a zero width to 640 and a zero height to
480, call `StartStream`, answer 500 with the error text on failure and 200
with the echo body on success. -/
def handleStartStream (sm : StreamManager) (req : StartReq) :
    Response × StreamManager × List LaunchedTask :=
  let w := if req.width = 0 then 640 else req.width
  let h := if req.height = 0 then 480 else req.height
  match StartStream sm req.streamID req.rtspURL w h with
  | .error e => (jsonResp 500 [("error", JsonVal.str e)], sm, [])
  | .ok (sm', tasks) =>
      (jsonResp 200
        [("message", JsonVal.str "Stream started successfully"),
         ("stream_id", JsonVal.str req.streamID),
         ("rtsp_url", JsonVal.str req.rtspURL),
         ("width", JsonVal.num w), ("height", JsonVal.num h)],
       sm', tasks)

/-- The request body of `POST /api/streams/start-with-url` after binding. -/
structure StartURLReq where
  rtspURL : String
  width : Int
  height : Int
  deriving Repr, DecidableEq

/-- `handleStartStreamWithURL`: derive the stream id from the MD5 of the
URL, default the resolution, answer 200 with a `Stream already running`
message if the id is taken, otherwise start the stream and answer 200, or
500 if `StartStream` fails. -/
def handleStartStreamWithURL (sm : StreamManager) (req : StartURLReq) :
    Response × StreamManager × List LaunchedTask :=
  let streamID := deriveStreamID req.rtspURL
  let w := if req.width = 0 then 640 else req.width
  let h := if req.height = 0 then 480 else req.height
  match alookup sm.streams streamID with
  | some _ =>
      (jsonResp 200
        [("message", JsonVal.str "Stream already running"),
         ("stream_id", JsonVal.str streamID),
         ("rtsp_url", JsonVal.str req.rtspURL),
         ("width", JsonVal.num w), ("height", JsonVal.num h)],
       sm, [])
  | none =>
      match StartStream sm streamID req.rtspURL w h with
      | .error e => (jsonResp 500 [("error", JsonVal.str e)], sm, [])
      | .ok (sm', tasks) =>
          (jsonResp 200
            [("message", JsonVal.str "Stream started successfully"),
             ("stream_id", JsonVal.str streamID),
             ("rtsp_url", JsonVal.str req.rtspURL),
             ("width", JsonVal.num w), ("height", JsonVal.num h)],
           sm', tasks)

/-- Render the 409 error text of `handleStopStream`. -/
def stopConflictMsg (streamID : String) (count : Nat) : String :=
  "Cannot stop stream " ++ streamID ++ ": " ++ toString count ++
    " client(s) still connected"

/-- `handleStopStream` (safe stop): 404 if the stream is unknown; 409 with
the client count if any client is attached (reading the stream's own
`clients` map), leaving the manager untouched; otherwise `StopStream`, with
500 on its error and 200 on success. -/
def handleStopStream (sm : StreamManager) (streamID : String) :
    Response × StreamManager :=
  match alookup sm.streams streamID with
  | none => (jsonResp 404 [("error", JsonVal.str "Stream not found")], sm)
  | some st =>
      let clientCount := st.clients.length
      if clientCount > 0 then
        (jsonResp 409
          [("error", JsonVal.str (stopConflictMsg streamID clientCount)),
           ("client_count", JsonVal.num clientCount)], sm)
      else
        match StopStream sm streamID with
        | .error e => (jsonResp 500 [("error", JsonVal.str e)], sm)
        | .ok sm' =>
            (jsonResp 200
              [("message", JsonVal.str "Stream stopped successfully"),
               ("stream_id", JsonVal.str streamID)], sm')

/-- Outcome of the `select` in `handleGetFrame` waiting on the frame
buffer against a five-second timer: a received frame, a receive from the
closed channel (`ok == false`), or the timer firing first. -/
inductive FrameWait where
  | recv (f : Frame)
  | closedChan
  | timeout
  deriving Repr, DecidableEq

/-- `handleGetFrame`: 404 if the stream is unknown; 503 if its `isRunning`
flag is false; otherwise wait on the frame buffer: a received frame is
answered 200 as `application/octet-stream` with the `X-Frame-Timestamp`
header holding the current wall clock in integer nanoseconds, a closed
buffer is answered 503, and the five-second timeout is answered 204 with no
content.  The returned stream is the handler's view of the frame buffer
after the consuming receive. -/
def handleGetFrame (sm : StreamManager) (streamID : String)
    (wait : FrameWait) (nowUnixNanos : Int) : Response × Option Stream :=
  match alookup sm.streams streamID with
  | none => (jsonResp 404 [("error", JsonVal.str "Stream not found")], none)
  | some st =>
      if !st.isRunning then
        (jsonResp 503 [("error", JsonVal.str "Stream not running")], some st)
      else
        match wait with
        | FrameWait.recv f =>
            ({ status := 200,
               headers :=
                 [("Content-Type", "application/octet-stream"),
                  ("X-Frame-Timestamp", toString nowUnixNanos)],
               body := RespBody.bin "application/octet-stream" f },
             some { st with frameBuffer := st.frameBuffer.drop 1 })
        | FrameWait.closedChan =>
            (jsonResp 503 [("error", JsonVal.str "Stream buffer closed")], some st)
        | FrameWait.timeout => ({ status := 204, headers := [], body := RespBody.empty }, some st)

/-- Whether a `FrameWait` outcome is one the Go runtime can produce against
the handler's captured stream: a frame is received iff the buffer holds one
(its head) or the buffer is open (a producer may send during the wait); the
closed branch requires a closed, drained buffer; the timeout requires an
open buffer that stays empty. -/
def frameWaitOk (st : Stream) (w : FrameWait) : Prop :=
  match w with
  | FrameWait.recv f => st.frameBuffer ≠ [] → f = st.frameBuffer.headI
  | FrameWait.closedChan => st.frameBufferClosed ∧ st.frameBuffer = []
  | FrameWait.timeout => ¬st.frameBufferClosed ∧ st.frameBuffer = []

/-- `handleWebSocket` up to the upgrade decision: 404 if the stream is
unknown, 503 if it is not running; otherwise the connection is upgraded and
`AddClient` runs (no JSON response on that path).  The returned response is
`none` when the handler proceeded to the upgrade. -/
def handleWebSocket (sm : StreamManager) (streamID : String) :
    Option Response × StreamManager :=
  match alookup sm.streams streamID with
  | none =>
      (some (jsonResp 404 [("error", JsonVal.str "Stream not found")]), sm)
  | some st =>
      if !st.isRunning then
        (some (jsonResp 503 [("error", JsonVal.str "Stream not running")]), sm)
      else
        match AddClient sm streamID with
        | .error _ => (none, sm)
        | .ok (sm', _) => (none, sm')

/-! ### General lemmas about the association-list map operations -/

theorem alookup_aset {α : Type} (l : List (String × α)) (k k' : String) (v : α) :
    alookup (aset l k v) k' = if k = k' then some v else alookup l k' := by
  induction l with
  | nil => simp [aset, alookup]
  | cons p rest ih =>
      obtain ⟨pk, pv⟩ := p
      by_cases hpk : pk = k
      · subst hpk
        simp [aset, alookup]
        by_cases hk : pk = k' <;> simp [hk]
      · simp [aset, hpk, alookup]
        by_cases hk : pk = k'
        · subst hk
          have : ¬ k = pk := fun h => hpk h.symm
          simp [this, alookup]
        · simp [hk, ih]

/-! ### Ingestor lemmas (frame pipe discipline) -/

theorem ingestFrame_frameCount (s : Stream) (f : Frame) (nowNs : Nat) :
    (ingestFrame s f nowNs).frameCount = s.frameCount + 1 := by
  unfold ingestFrame
  split <;> simp

theorem isEmpty_false_of_length_cap (l : List Frame)
    (h : l.length = frameBufferCap) : l.isEmpty = false := by
  cases l with
  | nil => simp [frameBufferCap] at h
  | cons a t => rfl

theorem ingestFrame_depth_le (s : Stream) (f : Frame) (nowNs : Nat)
    (h : s.frameBuffer.length ≤ frameBufferCap) :
    (ingestFrame s f nowNs).frameBuffer.length ≤ frameBufferCap := by
  unfold ingestFrame
  split
  · rename_i hlt
    simp
    omega
  · rename_i hge
    have hlen : s.frameBuffer.length = frameBufferCap := by omega
    have hne : s.frameBuffer.isEmpty = false := isEmpty_false_of_length_cap _ hlen
    simp [hne]
    unfold frameBufferCap at *
    omega

theorem ingestRun_frameCount (frames : List (Nat × Frame)) (s : Stream) :
    (frames.foldl (fun st p => ingestFrame st p.2 p.1) s).frameCount =
      s.frameCount + frames.length := by
  induction frames generalizing s with
  | nil => simp
  | cons p rest ih =>
      simp only [List.foldl_cons, ih, ingestFrame_frameCount, List.length_cons]
      omega

theorem ingestRun_depth_le (frames : List (Nat × Frame)) (s : Stream)
    (h : s.frameBuffer.length ≤ frameBufferCap) :
    (frames.foldl (fun st p => ingestFrame st p.2 p.1) s).frameBuffer.length ≤
      frameBufferCap := by
  induction frames generalizing s with
  | nil => simpa using h
  | cons p rest ih =>
      simp only [List.foldl_cons]
      exact ih _ (ingestFrame_depth_le _ _ _ h)

/-- Claim C2: on each successful frame read with the pipe full, the
ingestor performs a single non-blocking dequeue of the oldest frame and
then enqueues the new one, still counting the frame; and a 150-frame
producer burst into a fresh stream with no consumer leaves
`frame_count = 150` while the pipe depth never exceeds the capacity of
100 at any point of the burst. -/
theorem frame_pipe_drop_oldest (s : Stream) (f : Frame) (nowNs : Nat)
    (sid url : String) (frames : List (Nat × Frame))
    (hfull : s.frameBuffer.length = frameBufferCap)
    (hburst : frames.length = 150) :
    ((ingestFrame s f nowNs).frameBuffer = s.frameBuffer.drop 1 ++ [f] ∧
      (ingestFrame s f nowNs).frameCount = s.frameCount + 1) ∧
    (startFFmpeg (newStream sid url) (FFmpegRun.reads frames false)).1.frameCount = 150 ∧
    (∀ k : Nat,
      (startFFmpeg (newStream sid url)
        (FFmpegRun.reads (frames.take k) false)).1.frameBuffer.length ≤ frameBufferCap) := by
  refine ⟨⟨?_, ingestFrame_frameCount s f nowNs⟩, ?_, ?_⟩
  · unfold ingestFrame
    have hnlt : ¬ s.frameBuffer.length < frameBufferCap := by omega
    have hne : s.frameBuffer.isEmpty = false := isEmpty_false_of_length_cap _ hfull
    simp [hnlt, hne]
  · unfold startFFmpeg
    simp only []
    rw [ingestRun_frameCount]
    simp [newStream, hburst]
  · intro k
    unfold startFFmpeg
    simp only []
    exact ingestRun_depth_le _ _ (by simp [newStream, frameBufferCap])

/-- A pipe already holding 100 queued frames, for the drop-oldest witness. -/
def fullPipeStream : Stream :=
  { newStream "cam1" "rtsp://fake/1" with
      frameBuffer := List.replicate 100 [0] }

/-- A 150-frame producer burst with distinct one-byte frames at increasing
times. -/
def burst150 : List (Nat × Frame) :=
  (List.range 150).map (fun i => (i, [i]))

/-- Witness for claim C2 at a concrete full pipe and a concrete 150-frame
burst. -/
theorem frame_pipe_drop_oldest_witness :
    (((ingestFrame fullPipeStream [7] 9).frameBuffer =
        fullPipeStream.frameBuffer.drop 1 ++ [[7]] ∧
      (ingestFrame fullPipeStream [7] 9).frameCount =
        fullPipeStream.frameCount + 1) ∧
    (startFFmpeg (newStream "cam1" "rtsp://fake/1")
        (FFmpegRun.reads burst150 false)).1.frameCount = 150 ∧
    (∀ k : Nat,
      (startFFmpeg (newStream "cam1" "rtsp://fake/1")
        (FFmpegRun.reads (burst150.take k) false)).1.frameBuffer.length ≤
          frameBufferCap)) :=
  frame_pipe_drop_oldest fullPipeStream [7] 9 "cam1" "rtsp://fake/1" burst150
    (by simp [fullPipeStream, newStream, frameBufferCap])
    (by simp [burst150])

/-! ### Close-once invariant machinery for claim C1 -/

/-- A client's send channel has been closed at most once, and not at all
while its `closed` flag is still false. -/
def clientCloseInvB (c : Client) : Bool :=
  decide (c.sendCloseCount ≤ 1) && (c.closed || decide (c.sendCloseCount = 0))

/-- Every client object in the heap satisfies the close-once invariant. -/
def heapInvB (h : List (String × Client)) : Bool :=
  h.all (fun p => clientCloseInvB p.2)

theorem alookup_all {α : Type} (p : String × α → Bool) (l : List (String × α))
    (k : String) (v : α) (hall : l.all p = true) (hl : alookup l k = some v) :
    p (k, v) = true := by
  induction l with
  | nil => simp [alookup] at hl
  | cons q rest ih =>
      obtain ⟨qk, qv⟩ := q
      rw [List.all_cons, Bool.and_eq_true] at hall
      unfold alookup at hl
      by_cases h : qk = k
      · subst h
        simp at hl
        subst hl
        exact hall.1
      · simp [h] at hl
        exact ih hall.2 hl

theorem aset_all {α : Type} (p : String × α → Bool) (l : List (String × α))
    (k : String) (v : α) (hall : l.all p = true) (hv : p (k, v) = true) :
    (aset l k v).all p = true := by
  induction l with
  | nil => simpa [aset]
  | cons q rest ih =>
      obtain ⟨qk, qv⟩ := q
      rw [List.all_cons, Bool.and_eq_true] at hall
      unfold aset
      by_cases h : qk = k
      · rw [if_pos h, List.all_cons, Bool.and_eq_true]
        exact ⟨hv, hall.2⟩
      · rw [if_neg h, List.all_cons, Bool.and_eq_true]
        exact ⟨hall.1, ih hall.2⟩

theorem closeClientOnce_invB (c : Client) (h : clientCloseInvB c = true) :
    clientCloseInvB (closeClientOnce c) = true := by
  unfold clientCloseInvB closeClientOnce at *
  cases hc : c.closed with
  | true => simpa [hc] using h
  | false =>
      simp [hc] at h ⊢
      omega

theorem disconnectClient_inv (h : List (String × Client)) (cid : String)
    (hh : heapInvB h = true) : heapInvB (disconnectClient h cid) = true := by
  unfold disconnectClient
  cases hl : alookup h cid with
  | none => simpa using hh
  | some c =>
      have hc : clientCloseInvB c = true := alookup_all _ h cid c hh hl
      have hc' : clientCloseInvB { closeClientOnce c with connClosed := true } = true := by
        have := closeClientOnce_invB c hc
        simpa [clientCloseInvB] using this
      exact aset_all _ h cid _ hh hc'

theorem stopFold_inv (ids : List String) (h : List (String × Client))
    (hh : heapInvB h = true) : heapInvB (ids.foldl disconnectClient h) = true := by
  induction ids generalizing h with
  | nil => simpa using hh
  | cons i rest ih =>
      simp only [List.foldl_cons]
      exact ih _ (disconnectClient_inv h i hh)

theorem RemoveClient_heapInv (sm : StreamManager) (cid : String)
    (h : heapInvB sm.clientHeap = true) :
    heapInvB (RemoveClient sm cid).clientHeap = true := by
  unfold RemoveClient
  cases hl : alookup sm.clientHeap cid with
  | none => simpa using h
  | some c =>
      cases hc : c.closed with
      | true => simpa [hc] using h
      | false =>
          have hcc : clientCloseInvB c = true := alookup_all _ _ cid c h hl
          simp only [hc, Bool.false_eq_true, if_false]
          exact aset_all _ _ cid _ h (closeClientOnce_invB c hcc)

theorem StopStream_heapInv (sm : StreamManager) (sid : String)
    (h : heapInvB sm.clientHeap = true) (sm' : StreamManager)
    (hok : StopStream sm sid = Except.ok sm') :
    heapInvB sm'.clientHeap = true := by
  unfold StopStream at hok
  cases hl : alookup sm.streams sid with
  | none => rw [hl] at hok; exact absurd hok (by simp)
  | some st =>
      rw [hl] at hok
      simp only [Except.ok.injEq] at hok
      subst hok
      exact stopFold_inv _ _ h

theorem AddClient_heapInv (sm : StreamManager) (sid : String)
    (h : heapInvB sm.clientHeap = true) (sm' : StreamManager) (cid : String)
    (hok : AddClient sm sid = Except.ok (sm', cid)) :
    heapInvB sm'.clientHeap = true := by
  unfold AddClient at hok
  cases hl : alookup sm.streams sid with
  | none => rw [hl] at hok; exact absurd hok (by simp)
  | some st =>
      rw [hl] at hok
      simp only [Except.ok.injEq, Prod.mk.injEq] at hok
      obtain ⟨hsm, _⟩ := hok
      subst hsm
      exact aset_all _ _ _ _ h (by simp [clientCloseInvB])

/-- The serialized shutdown-relevant operations that can run against the
manager: client removal (from Reader exit or Writer exit), stream stop,
client attach, and stream start.  Each Go call holds `sm.mu` for its whole
body, so any interleaving is a sequence of these. -/
inductive MgrOp where
  | removeClient (cid : String)
  | stopStream (sid : String)
  | addClient (sid : String)
  | startStream (sid url : String) (width height : Int)
  deriving Repr, DecidableEq

/-- Apply one operation; the erroring calls leave the manager unchanged. -/
def mgrApply (sm : StreamManager) (op : MgrOp) : StreamManager :=
  match op with
  | MgrOp.removeClient cid => RemoveClient sm cid
  | MgrOp.stopStream sid =>
      match StopStream sm sid with
      | Except.ok sm' => sm'
      | Except.error _ => sm
  | MgrOp.addClient sid =>
      match AddClient sm sid with
      | Except.ok (sm', _) => sm'
      | Except.error _ => sm
  | MgrOp.startStream sid url w h =>
      match StartStream sm sid url w h with
      | Except.ok (sm', _) => sm'
      | Except.error _ => sm

/-- Run a sequence of serialized operations. -/
def mgrRun (sm : StreamManager) (ops : List MgrOp) : StreamManager :=
  ops.foldl mgrApply sm

theorem mgrApply_heapInv (sm : StreamManager) (op : MgrOp)
    (h : heapInvB sm.clientHeap = true) :
    heapInvB (mgrApply sm op).clientHeap = true := by
  cases op with
  | removeClient cid => exact RemoveClient_heapInv sm cid h
  | stopStream sid =>
      simp only [mgrApply]
      cases hs : StopStream sm sid with
      | ok sm' => simpa using StopStream_heapInv sm sid h sm' hs
      | error e => simpa using h
  | addClient sid =>
      simp only [mgrApply]
      cases hs : AddClient sm sid with
      | ok p =>
          obtain ⟨sm', cid⟩ := p
          simpa using AddClient_heapInv sm sid h sm' cid hs
      | error e => simpa using h
  | startStream sid url w hh =>
      simp only [mgrApply]
      cases hs : StartStream sm sid url w hh with
      | ok p =>
          obtain ⟨sm', tasks⟩ := p
          unfold StartStream at hs
          cases hl : alookup sm.streams sid with
          | some _ => rw [hl] at hs; exact absurd hs (by simp)
          | none =>
              rw [hl] at hs
              simp only [Except.ok.injEq, Prod.mk.injEq] at hs
              obtain ⟨hsm, _⟩ := hs
              subst hsm
              simpa using h
      | error e => simpa using h

theorem mgrRun_heapInv (ops : List MgrOp) (sm : StreamManager)
    (h : heapInvB sm.clientHeap = true) :
    heapInvB (mgrRun sm ops).clientHeap = true := by
  induction ops generalizing sm with
  | nil => simpa [mgrRun] using h
  | cons op rest ih =>
      simp only [mgrRun, List.foldl_cons]
      exact ih _ (mgrApply_heapInv sm op h)

/-- Claim C1: every client's send queue is closed at most once under any
interleaving of Reader exit, Writer exit and stream stop (each a serialized
manager operation); `RemoveClient` on an already-closed client returns
immediately without closing the queue or mutating the registry; and both
the remove path and the stop path close a send queue only on the
false-to-true transition of the `closed` flag. -/
theorem send_queue_closed_at_most_once (sm : StreamManager) (ops : List MgrOp)
    (cid : String) (c : Client)
    (hinv : heapInvB sm.clientHeap = true) :
    heapInvB (mgrRun sm ops).clientHeap = true ∧
    (∀ cid' c', alookup (mgrRun sm ops).clientHeap cid' = some c' →
       c'.sendCloseCount ≤ 1) ∧
    (alookup sm.clientHeap cid = some c → c.closed = true →
       RemoveClient sm cid = sm) ∧
    (c.closed = true → closeClientOnce c = c) ∧
    (c.closed = false →
       closeClientOnce c =
         { c with closed := true, sendClosed := true,
                  sendCloseCount := c.sendCloseCount + 1 }) ∧
    (∀ h : List (String × Client), alookup h cid = some c → c.closed = true →
       disconnectClient h cid = aset h cid { c with connClosed := true }) := by
  have hrun := mgrRun_heapInv ops sm hinv
  refine ⟨hrun, ?_, ?_, ?_, ?_, ?_⟩
  · intro cid' c' hl
    have := alookup_all _ _ cid' c' hrun hl
    unfold clientCloseInvB at this
    rw [Bool.and_eq_true, decide_eq_true_iff] at this
    exact this.1
  · intro hl hc
    simp [RemoveClient, hl, hc]
  · intro hc
    simp [closeClientOnce, hc]
  · intro hc
    simp [closeClientOnce, hc]
  · intro h hl hc
    simp [disconnectClient, hl, closeClientOnce, hc]

/-- The empty manager at process start. -/
def sm0 : StreamManager :=
  { streams := [], clientHeap := [], clientsMirror := [], clientIDGen := 0 }

/-- A manager with one running stream and one attached client, reached by a
create followed by an attach. -/
def smOneClient : StreamManager :=
  mgrRun sm0
    [MgrOp.startStream "cam1" "rtsp://fake/1" 640 480, MgrOp.addClient "cam1"]

/-- An already-closed client object, as left behind by a completed removal. -/
def closedClientObj : Client :=
  { id := "client_1", streamID := "cam1", send := [], sendClosed := true,
    sendCloseCount := 1, closed := true, connClosed := true }

/-- Witness for claim C1: a concrete manager with one attached client, a
concrete interleaving in which the Reader exit, the stream stop, and the
Writer exit all attempt removal, and a concrete already-closed client. -/
theorem send_queue_closed_at_most_once_witness :
    heapInvB (mgrRun smOneClient
      [MgrOp.removeClient "client_1", MgrOp.stopStream "cam1",
       MgrOp.removeClient "client_1"]).clientHeap = true ∧
    (∀ cid' c', alookup (mgrRun smOneClient
      [MgrOp.removeClient "client_1", MgrOp.stopStream "cam1",
       MgrOp.removeClient "client_1"]).clientHeap cid' = some c' →
       c'.sendCloseCount ≤ 1) ∧
    (alookup smOneClient.clientHeap "client_1" = some closedClientObj →
       closedClientObj.closed = true →
       RemoveClient smOneClient "client_1" = smOneClient) ∧
    (closedClientObj.closed = true → closeClientOnce closedClientObj = closedClientObj) ∧
    (closedClientObj.closed = false →
       closeClientOnce closedClientObj =
         { closedClientObj with
             closed := true
             sendClosed := true
             sendCloseCount := closedClientObj.sendCloseCount + 1 }) ∧
    (∀ h : List (String × Client), alookup h "client_1" = some closedClientObj →
       closedClientObj.closed = true →
       disconnectClient h "client_1" =
         aset h "client_1" { closedClientObj with connClosed := true }) :=
  send_queue_closed_at_most_once smOneClient
    [MgrOp.removeClient "client_1", MgrOp.stopStream "cam1",
     MgrOp.removeClient "client_1"] "client_1" closedClientObj (by decide)

/-! ### Ingest retry loop (claim C6) and health monitor (claim C7) -/

theorem ingestLoop_fail_replicate (n : Nat) (st : IngestLoop)
    (h : st.exited = false) :
    (List.replicate n ((false : Bool), (true : Bool))).foldl
        (fun st p => ingestLoopStep st p.1 p.2) st =
      { st with attempts := st.attempts + n
                sleptMs := st.sleptMs + n * restartDelayMs } := by
  induction n generalizing st with
  | zero => simp
  | succ m ih =>
      rw [List.replicate_succ, List.foldl_cons]
      have hstep : ingestLoopStep st false true =
          { st with attempts := st.attempts + 1
                    sleptMs := st.sleptMs + restartDelayMs } := by
        simp [ingestLoopStep, h]
      rw [hstep, ih _ (by simpa using h)]
      simp only [IngestLoop.mk.injEq]
      refine ⟨by omega, by ring, trivial⟩

/-- Claim C6: as long as the stream stays registered (its context is never
canceled), the ingestor loop survives any number of consecutive
`startFFmpeg` failures, retrying each after the fixed two-second
`restart_delay`; there is no retry cap, and each failing iteration advances
the attempt count by one after exactly one `restart_delay` sleep. -/
theorem ingest_retries_forever (n : Nat) (st : IngestLoop)
    (h : st.exited = false) :
    (ingestLoopRun (List.replicate n ((false : Bool), (true : Bool))) =
      { attempts := n, sleptMs := n * restartDelayMs, exited := false }) ∧
    (ingestLoopStep st false true =
      { st with attempts := st.attempts + 1
                sleptMs := st.sleptMs + restartDelayMs }) ∧
    (ingestLoopStep st true true).exited = true := by
  refine ⟨?_, by simp [ingestLoopStep, h], by simp [ingestLoopStep, h]⟩
  unfold ingestLoopRun
  rw [ingestLoop_fail_replicate n _ rfl]
  simp

/-- A mid-run retry-loop state for the claim C6 witness. -/
def loopStateW : IngestLoop := { attempts := 41, sleptMs := 82000, exited := false }

/-- Witness for claim C6 at one thousand consecutive failures. -/
theorem ingest_retries_forever_witness :
    ((ingestLoopRun (List.replicate 1000 ((false : Bool), (true : Bool))) =
      { attempts := 1000, sleptMs := 1000 * restartDelayMs, exited := false }) ∧
    (ingestLoopStep loopStateW false true =
      { loopStateW with
          attempts := loopStateW.attempts + 1
          sleptMs := loopStateW.sleptMs + restartDelayMs }) ∧
    (ingestLoopStep loopStateW true true).exited = true) :=
  ingest_retries_forever 1000 loopStateW rfl

/-- Claim C7: on a monitor tick where the stream is running and the time
since the last frame exceeds the ten-second stall threshold, the monitor
fires the current cancel generation, installs a fresh one, clears
`isRunning`, and relaunches the ingestor with the same width and height it
was itself launched with; a quiet tick changes nothing; and a
`health_stop` signal terminates the monitor. -/
theorem monitor_restarts_stalled (w h : Int) (s : Stream) (nowNs : Nat)
    (hrun : s.isRunning = true)
    (hstall : nowNs - s.lastFrameTimeNs > maxStallDurationNs) :
    (monitorStep w h s (MonitorEvent.tick nowNs) =
      ({ s with
           firedCancels := s.firedCancels ++ [s.cancelGen]
           cancelGen := s.cancelGen + 1
           isRunning := false },
       [MonitorAction.fireCancel s.cancelGen,
        MonitorAction.relaunchIngest s.streamID w h], false)) ∧
    (∀ s' : Stream, ∀ now' : Nat, ¬ now' - s'.lastFrameTimeNs > maxStallDurationNs →
       monitorStep w h s' (MonitorEvent.tick now') = (s', [], false)) ∧
    (monitorStep w h s MonitorEvent.healthStop = (s, [], true)) := by
  refine ⟨?_, ?_, rfl⟩
  · simp [monitorStep, hrun, hstall]
  · intro s' now' hq
    simp [monitorStep, hq]

/-- A stream that produced its last frame at time 1 s and is running. -/
def stalledStream : Stream :=
  { newStream "cam1" "rtsp://fake/1" with
      isRunning := true
      lastFrameTimeNs := 1000000000
      frameCount := 1 }

/-- Witness for claim C7: the concrete stalled stream at t = 15 s. -/
theorem monitor_restarts_stalled_witness :
    ((monitorStep 640 480 stalledStream (MonitorEvent.tick 15000000000) =
      ({ stalledStream with
           firedCancels := stalledStream.firedCancels ++ [stalledStream.cancelGen]
           cancelGen := stalledStream.cancelGen + 1
           isRunning := false },
       [MonitorAction.fireCancel stalledStream.cancelGen,
        MonitorAction.relaunchIngest stalledStream.streamID 640 480], false)) ∧
    (∀ s' : Stream, ∀ now' : Nat, ¬ now' - s'.lastFrameTimeNs > maxStallDurationNs →
       monitorStep 640 480 s' (MonitorEvent.tick now') = (s', [], false)) ∧
    (monitorStep 640 480 stalledStream MonitorEvent.healthStop =
      (stalledStream, [], true))) :=
  monitor_restarts_stalled 640 480 stalledStream 15000000000 rfl (by decide)

/-! ### HTTP handler theorems (claims C4, C5, C10) -/

/-- Claim C4: the safe stop endpoint answers 404 when the stream is
unknown; 409 with the client count in the error body, leaving the manager
untouched, when the stream exists with at least one attached client; and
200 when the stream exists with zero clients. -/
theorem safe_stop_endpoint
    (smA : StreamManager) (sidA : String)
    (smB : StreamManager) (sidB : String) (stB : Stream)
    (smC : StreamManager) (sidC : String) (stC : Stream)
    (hA : alookup smA.streams sidA = none)
    (hB : alookup smB.streams sidB = some stB)
    (hBc : stB.clients.length > 0)
    (hC : alookup smC.streams sidC = some stC)
    (hCc : stC.clients.length = 0) :
    (handleStopStream smA sidA =
       (jsonResp 404 [("error", JsonVal.str "Stream not found")], smA)) ∧
    (handleStopStream smB sidB =
       (jsonResp 409
         [("error", JsonVal.str (stopConflictMsg sidB stB.clients.length)),
          ("client_count", JsonVal.num stB.clients.length)], smB)) ∧
    ((handleStopStream smC sidC).1 =
       jsonResp 200
         [("message", JsonVal.str "Stream stopped successfully"),
          ("stream_id", JsonVal.str sidC)]) := by
  refine ⟨?_, ?_, ?_⟩
  · simp [handleStopStream, hA]
  · simp [handleStopStream, hB, hBc]
  · simp [handleStopStream, hC, hCc, StopStream]

/-- A manager with a single just-created (not yet running) stream. -/
def smStarting : StreamManager := mgrRun sm0 [MgrOp.startStream "cam1" "rtsp://fake/1" 640 480]

/-- Witness for claim C4: unknown id on the empty manager, a stream with
one client, and a stream with no clients. -/
theorem safe_stop_endpoint_witness :
    (handleStopStream sm0 "nosuch" =
       (jsonResp 404 [("error", JsonVal.str "Stream not found")], sm0)) ∧
    (handleStopStream smOneClient "cam1" =
       (jsonResp 409
         [("error", JsonVal.str (stopConflictMsg "cam1"
            ({ newStream "cam1" "rtsp://fake/1" with clients := ["client_1"] } : Stream).clients.length)),
          ("client_count", JsonVal.num
            ({ newStream "cam1" "rtsp://fake/1" with clients := ["client_1"] } : Stream).clients.length)],
        smOneClient)) ∧
    ((handleStopStream smStarting "cam1").1 =
       jsonResp 200
         [("message", JsonVal.str "Stream stopped successfully"),
          ("stream_id", JsonVal.str "cam1")]) :=
  safe_stop_endpoint sm0 "nosuch"
    smOneClient "cam1" { newStream "cam1" "rtsp://fake/1" with clients := ["client_1"] }
    smStarting "cam1" (newStream "cam1" "rtsp://fake/1")
    (by decide) (by decide) (by decide) (by decide) (by decide)

/-- Claim C5: the pull endpoint answers 404 for an unknown stream, 503 for
a stream whose running flag is false, 200 with the frame as
`application/octet-stream` and the server wall clock in integer
nanoseconds in `X-Frame-Timestamp` when a frame is received (consuming the
head of the pipe), and 204 with no content when the five-second timeout
fires first. -/
theorem get_frame_endpoint
    (smA : StreamManager) (sidA : String) (wA : FrameWait)
    (smB : StreamManager) (sidB : String) (stB : Stream)
    (smC : StreamManager) (sidC : String) (stC : Stream) (fC f : Frame)
    (rest : List Frame)
    (smD : StreamManager) (sidD : String) (stD : Stream)
    (nowUnixNanos : Int)
    (hA : alookup smA.streams sidA = none)
    (hB : alookup smB.streams sidB = some stB)
    (hBr : stB.isRunning = false)
    (hC : alookup smC.streams sidC = some stC)
    (hCr : stC.isRunning = true)
    (hCbuf : stC.frameBuffer = f :: rest)
    (hCok : frameWaitOk stC (FrameWait.recv fC))
    (hD : alookup smD.streams sidD = some stD)
    (hDr : stD.isRunning = true)
    (_hDok : frameWaitOk stD FrameWait.timeout) :
    (handleGetFrame smA sidA wA nowUnixNanos =
       (jsonResp 404 [("error", JsonVal.str "Stream not found")], none)) ∧
    ((handleGetFrame smB sidB wA nowUnixNanos).1 =
       jsonResp 503 [("error", JsonVal.str "Stream not running")]) ∧
    (fC = f ∧
     handleGetFrame smC sidC (FrameWait.recv fC) nowUnixNanos =
       ({ status := 200,
          headers :=
            [("Content-Type", "application/octet-stream"),
             ("X-Frame-Timestamp", toString nowUnixNanos)],
          body := RespBody.bin "application/octet-stream" fC },
        some { stC with frameBuffer := rest })) ∧
    ((handleGetFrame smD sidD FrameWait.timeout nowUnixNanos).1 =
       { status := 204, headers := [], body := RespBody.empty }) ∧
    frameRequestTimeoutS = 5 := by
  have hfc : fC = f := by
    have hne : stC.frameBuffer ≠ [] := by rw [hCbuf]; exact List.cons_ne_nil f rest
    have := hCok hne
    rw [this, hCbuf]
    rfl
  refine ⟨?_, ?_, ⟨hfc, ?_⟩, ?_, rfl⟩
  · simp [handleGetFrame, hA]
  · simp [handleGetFrame, hB, hBr]
  · simp [handleGetFrame, hC, hCr, hCbuf]
  · simp [handleGetFrame, hD, hDr]

/-- A running stream holding two queued frames. -/
def stTwoFrames : Stream :=
  { newStream "cam1" "rtsp://fake/1" with
      isRunning := true
      frameBuffer := [[1], [2]]
      frameCount := 2 }

/-- A manager whose single stream is running with two queued frames. -/
def smTwoFrames : StreamManager :=
  { sm0 with streams := [("cam1", stTwoFrames)], clientsMirror := [("cam1", [])] }

/-- A running stream with an open, empty pipe. -/
def stIdle : Stream :=
  { newStream "cam2" "rtsp://fake/2" with isRunning := true }

/-- A manager whose single stream is running with an empty pipe. -/
def smIdle : StreamManager :=
  { sm0 with streams := [("cam2", stIdle)], clientsMirror := [("cam2", [])] }

/-- Witness for claim C5 at concrete managers for each of the four
outcomes. -/
theorem get_frame_endpoint_witness :
    (handleGetFrame sm0 "nosuch" FrameWait.timeout 1700000000000000000 =
       (jsonResp 404 [("error", JsonVal.str "Stream not found")], none)) ∧
    ((handleGetFrame smStarting "cam1" FrameWait.timeout 1700000000000000000).1 =
       jsonResp 503 [("error", JsonVal.str "Stream not running")]) ∧
    (([1] : Frame) = [1] ∧
     handleGetFrame smTwoFrames "cam1" (FrameWait.recv [1]) 1700000000000000000 =
       ({ status := 200,
          headers :=
            [("Content-Type", "application/octet-stream"),
             ("X-Frame-Timestamp", toString (1700000000000000000 : Int))],
          body := RespBody.bin "application/octet-stream" [1] },
        some { stTwoFrames with frameBuffer := [[2]] })) ∧
    ((handleGetFrame smIdle "cam2" FrameWait.timeout 1700000000000000000).1 =
       { status := 204, headers := [], body := RespBody.empty }) ∧
    frameRequestTimeoutS = 5 :=
  get_frame_endpoint sm0 "nosuch" FrameWait.timeout
    smStarting "cam1" (newStream "cam1" "rtsp://fake/1")
    smTwoFrames "cam1" stTwoFrames [1] [1] [[2]]
    smIdle "cam2" stIdle 1700000000000000000
    (by decide) (by decide) (by decide) (by decide) (by decide) (by decide)
    (by intro h; rfl) (by decide) (by decide) ⟨by decide, rfl⟩

/-- Claim C10: when the frame pipe is closed while the pull endpoint is
waiting (the stop path closes the pipe of the stream object the handler
captured), the receive reports a closed channel and the handler answers
503 with the `Stream buffer closed` error, not 204, not 404, and not a
frame. -/
theorem get_frame_buffer_closed (sm : StreamManager) (sid : String)
    (st : Stream) (nowUnixNanos : Int)
    (hl : alookup sm.streams sid = some st)
    (hr : st.isRunning = true) :
    (stopStreamObject st).frameBufferClosed = true ∧
    ((handleGetFrame sm sid FrameWait.closedChan nowUnixNanos).1 =
       jsonResp 503 [("error", JsonVal.str "Stream buffer closed")]) ∧
    ((handleGetFrame sm sid FrameWait.closedChan nowUnixNanos).1.status ≠ 204) ∧
    ((handleGetFrame sm sid FrameWait.closedChan nowUnixNanos).1.status ≠ 404) ∧
    (∀ ct : String, ∀ p : Frame,
       (handleGetFrame sm sid FrameWait.closedChan nowUnixNanos).1.body ≠
         RespBody.bin ct p) := by
  have h503 : (handleGetFrame sm sid FrameWait.closedChan nowUnixNanos).1 =
      jsonResp 503 [("error", JsonVal.str "Stream buffer closed")] := by
    simp [handleGetFrame, hl, hr]
  refine ⟨rfl, h503, ?_, ?_, ?_⟩
  · rw [h503]; simp [jsonResp]
  · rw [h503]; simp [jsonResp]
  · intro ct p; rw [h503]; simp [jsonResp]

/-- A running stream whose pipe has just been closed and drained by the
stop path. -/
def stClosedPipe : Stream :=
  { stopStreamObject stIdle with streamID := "cam3", rtspURL := "rtsp://fake/3" }

/-- A manager whose single stream is running but has a closed pipe. -/
def smClosedPipe : StreamManager :=
  { sm0 with streams := [("cam3", stClosedPipe)], clientsMirror := [("cam3", [])] }

/-- Witness for claim C10 at a concrete stopped-during-wait scenario. -/
theorem get_frame_buffer_closed_witness :
    (stopStreamObject stClosedPipe).frameBufferClosed = true ∧
    ((handleGetFrame smClosedPipe "cam3" FrameWait.closedChan 1700000000000000000).1 =
       jsonResp 503 [("error", JsonVal.str "Stream buffer closed")]) ∧
    ((handleGetFrame smClosedPipe "cam3" FrameWait.closedChan 1700000000000000000).1.status ≠ 204) ∧
    ((handleGetFrame smClosedPipe "cam3" FrameWait.closedChan 1700000000000000000).1.status ≠ 404) ∧
    (∀ ct : String, ∀ p : Frame,
       (handleGetFrame smClosedPipe "cam3" FrameWait.closedChan 1700000000000000000).1.body ≠
         RespBody.bin ct p) :=
  get_frame_buffer_closed smClosedPipe "cam3" stClosedPipe 1700000000000000000
    (by decide) (by decide)

/-! ### Start-with-url endpoint (claim C8) -/

/-- Look up a field of a JSON response body. -/
def respField (r : Response) (k : String) : Option JsonVal :=
  match r.body with
  | RespBody.json fields => alookup fields k
  | _ => none

set_option maxRecDepth 100000 in
/-- The MD5 of the empty message, matching the reference value of RFC
1321, evidencing that the embedded digest is the real MD5 that Go's
`crypto/md5` computes. -/
theorem md5Hex_empty_vector : md5Hex [] = "d41d8cd98f00b204e9800998ecf8427e" := by
  rfl

/-- First-call behaviour of `handleStartStreamWithURL` when the derived id
is free: the stream is created and the body echoes the derived id. -/
theorem start_with_url_fresh (sm : StreamManager) (req : StartURLReq)
    (h : alookup sm.streams (deriveStreamID req.rtspURL) = none) :
    handleStartStreamWithURL sm req =
      (jsonResp 200
        [("message", JsonVal.str "Stream started successfully"),
         ("stream_id", JsonVal.str (deriveStreamID req.rtspURL)),
         ("rtsp_url", JsonVal.str req.rtspURL),
         ("width", JsonVal.num (if req.width = 0 then 640 else req.width)),
         ("height", JsonVal.num (if req.height = 0 then 480 else req.height))],
       { sm with
           streams := aset sm.streams (deriveStreamID req.rtspURL)
             (newStream (deriveStreamID req.rtspURL) req.rtspURL)
           clientsMirror := aset sm.clientsMirror (deriveStreamID req.rtspURL) [] },
       [LaunchedTask.runFFmpeg (deriveStreamID req.rtspURL)
          (if req.width = 0 then 640 else req.width)
          (if req.height = 0 then 480 else req.height),
        LaunchedTask.distribute (deriveStreamID req.rtspURL),
        LaunchedTask.monitorHealth (deriveStreamID req.rtspURL)
          (if req.width = 0 then 640 else req.width)
          (if req.height = 0 then 480 else req.height)]) := by
  simp [handleStartStreamWithURL, h, StartStream]

/-- Repeat-call behaviour of `handleStartStreamWithURL` when the derived
id is taken: 200 with the `already running` message and no change. -/
theorem start_with_url_exists (sm : StreamManager) (req : StartURLReq)
    (st : Stream)
    (h : alookup sm.streams (deriveStreamID req.rtspURL) = some st) :
    handleStartStreamWithURL sm req =
      (jsonResp 200
        [("message", JsonVal.str "Stream already running"),
         ("stream_id", JsonVal.str (deriveStreamID req.rtspURL)),
         ("rtsp_url", JsonVal.str req.rtspURL),
         ("width", JsonVal.num (if req.width = 0 then 640 else req.width)),
         ("height", JsonVal.num (if req.height = 0 then 480 else req.height))],
       sm, []) := by
  simp [handleStartStreamWithURL, h]

/-- Claim C8: the start-with-url endpoint derives the stream id as a
deterministic short hex digest of the URL (the first 16 bytes of
`stream_` plus the MD5 hex), so the same URL always yields the same id;
the first call answers 200 with that id and a started message, and a
second call while the stream exists answers 200 with a message containing
`already running` and the identical id. -/
theorem start_with_url_deterministic (url : String) (wi hi wi2 hi2 : Int)
    (sm : StreamManager)
    (habs : alookup sm.streams (deriveStreamID url) = none) :
    (deriveStreamID url = ("stream_" ++ md5Hex (utf8Bytes url)).take 16) ∧
    ((handleStartStreamWithURL sm ⟨url, wi, hi⟩).1.status = 200) ∧
    (respField (handleStartStreamWithURL sm ⟨url, wi, hi⟩).1 "stream_id" =
       some (JsonVal.str (deriveStreamID url))) ∧
    (respField (handleStartStreamWithURL sm ⟨url, wi, hi⟩).1 "message" =
       some (JsonVal.str "Stream started successfully")) ∧
    ((handleStartStreamWithURL
        (handleStartStreamWithURL sm ⟨url, wi, hi⟩).2.1 ⟨url, wi2, hi2⟩).1.status = 200) ∧
    (respField (handleStartStreamWithURL
        (handleStartStreamWithURL sm ⟨url, wi, hi⟩).2.1 ⟨url, wi2, hi2⟩).1 "message" =
       some (JsonVal.str "Stream already running")) ∧
    (respField (handleStartStreamWithURL
        (handleStartStreamWithURL sm ⟨url, wi, hi⟩).2.1 ⟨url, wi2, hi2⟩).1 "stream_id" =
       some (JsonVal.str (deriveStreamID url))) := by
  have hfirst := start_with_url_fresh sm ⟨url, wi, hi⟩ habs
  have hlook2 :
      alookup (handleStartStreamWithURL sm ⟨url, wi, hi⟩).2.1.streams
          (deriveStreamID url) = some (newStream (deriveStreamID url) url) := by
    rw [hfirst]
    simp [alookup_aset]
  have hsecond := start_with_url_exists
    (handleStartStreamWithURL sm ⟨url, wi, hi⟩).2.1 ⟨url, wi2, hi2⟩
    (newStream (deriveStreamID url) url) hlook2
  refine ⟨rfl, ?_, ?_, ?_, ?_, ?_, ?_⟩
  · rw [hfirst]; rfl
  · rw [hfirst]
    simp [respField, jsonResp, alookup]
  · rw [hfirst]
    simp [respField, jsonResp, alookup]
  · rw [hsecond]; rfl
  · rw [hsecond]
    simp [respField, jsonResp, alookup]
  · rw [hsecond]
    simp [respField, jsonResp, alookup]

/-- Witness for claim C8 at the concrete URL `rtsp://x` on the empty
manager. -/
theorem start_with_url_deterministic_witness :
    (deriveStreamID "rtsp://x" =
       ("stream_" ++ md5Hex (utf8Bytes "rtsp://x")).take 16) ∧
    ((handleStartStreamWithURL sm0 ⟨"rtsp://x", 0, 0⟩).1.status = 200) ∧
    (respField (handleStartStreamWithURL sm0 ⟨"rtsp://x", 0, 0⟩).1 "stream_id" =
       some (JsonVal.str (deriveStreamID "rtsp://x"))) ∧
    (respField (handleStartStreamWithURL sm0 ⟨"rtsp://x", 0, 0⟩).1 "message" =
       some (JsonVal.str "Stream started successfully")) ∧
    ((handleStartStreamWithURL
        (handleStartStreamWithURL sm0 ⟨"rtsp://x", 0, 0⟩).2.1 ⟨"rtsp://x", 320, 240⟩).1.status = 200) ∧
    (respField (handleStartStreamWithURL
        (handleStartStreamWithURL sm0 ⟨"rtsp://x", 0, 0⟩).2.1 ⟨"rtsp://x", 320, 240⟩).1 "message" =
       some (JsonVal.str "Stream already running")) ∧
    (respField (handleStartStreamWithURL
        (handleStartStreamWithURL sm0 ⟨"rtsp://x", 0, 0⟩).2.1 ⟨"rtsp://x", 320, 240⟩).1 "stream_id" =
       some (JsonVal.str (deriveStreamID "rtsp://x"))) :=
  start_with_url_deterministic "rtsp://x" 0 0 320 240 sm0 rfl

/-! ### The running flag versus subprocess liveness (claim C3) -/

/-- The just-created `cam1` stream before any ingest attempt. -/
def freshCam1 : Stream := newStream "cam1" "rtsp://fake/1"

/-- The `cam1` stream object after one subprocess start failure: the
ingest attempt set `isRunning` before `cmd.Start()` and nothing reset
it. -/
def cam1AfterStartErr : Stream := (startFFmpeg freshCam1 FFmpegRun.startErr).1

/-- The manager after the failed start attempt mutated the shared stream
object. -/
def smAfterStartErr : StreamManager :=
  { smStarting with streams := aset smStarting.streams "cam1" cam1AfterStartErr }

/-- Counterexample to claim C3: a stream whose subprocess start fails (and
keeps failing) and which never produced a frame nevertheless has
`isRunning = true`, because `startFFmpeg` sets the flag before
`cmd.Start()` and never clears it on failure; consequently a WebSocket
attach on it does not fail with 503 but proceeds to add the client. -/
theorem running_flag_counterexample :
    ((startFFmpeg freshCam1 FFmpegRun.startErr).2 = true) ∧
    (cam1AfterStartErr.frameCount = 0) ∧
    (cam1AfterStartErr.isRunning = true) ∧
    ((startFFmpeg cam1AfterStartErr FFmpegRun.startErr).1.isRunning = true) ∧
    ((handleWebSocket smAfterStartErr "cam1").1 = none) ∧
    ((handleWebSocket smAfterStartErr "cam1").1 ≠
       some (jsonResp 503 [("error", JsonVal.str "Stream not running")])) := by
  decide

/-- Claim C3 (amended): `startFFmpeg` sets `running` to true when it
reaches the subprocess start attempt, before and regardless of the
attempt's success, and never clears it on failure, so a stream whose
starts fail repeatedly has `running = true` from the first attempt on
while producing no frames; `running` is false only on the just-created
stream (or after the health monitor clears it), and exactly then does an
attach fail with NotRunning (503) — once the flag is set, attaches
succeed even with no live subprocess. -/
theorem running_reflects_start_attempt (s : Stream) (url : String)
    (smF : StreamManager) (sidF : String) (stF : Stream)
    (smT : StreamManager) (sidT : String) (stT : Stream)
    (hF : alookup smF.streams sidF = some stF)
    (hFr : stF.isRunning = false)
    (hT : alookup smT.streams sidT = some stT)
    (hTr : stT.isRunning = true) :
    ((startFFmpeg s FFmpegRun.startErr).1.isRunning = true ∧
     (startFFmpeg s FFmpegRun.startErr).1.frameCount = s.frameCount ∧
     (startFFmpeg s FFmpegRun.startErr).1.frameBuffer = s.frameBuffer) ∧
    ((newStream sidF url).isRunning = false) ∧
    ((handleWebSocket smF sidF).1 =
       some (jsonResp 503 [("error", JsonVal.str "Stream not running")])) ∧
    ((handleWebSocket smT sidT).1 = none) := by
  refine ⟨⟨rfl, rfl, rfl⟩, rfl, ?_, ?_⟩
  · simp [handleWebSocket, hF, hFr]
  · simp [handleWebSocket, hT, hTr, AddClient]

/-- Witness for the amended claim C3: the freshly created stream rejects
an attach with 503, while the same stream after one failed start attempt
accepts it. -/
theorem running_reflects_start_attempt_witness :
    (((startFFmpeg freshCam1 FFmpegRun.startErr).1.isRunning = true ∧
     (startFFmpeg freshCam1 FFmpegRun.startErr).1.frameCount = freshCam1.frameCount ∧
     (startFFmpeg freshCam1 FFmpegRun.startErr).1.frameBuffer = freshCam1.frameBuffer) ∧
    ((newStream "cam1" "rtsp://fake/1").isRunning = false) ∧
    ((handleWebSocket smStarting "cam1").1 =
       some (jsonResp 503 [("error", JsonVal.str "Stream not running")])) ∧
    ((handleWebSocket smAfterStartErr "cam1").1 = none)) :=
  running_reflects_start_attempt freshCam1 "rtsp://fake/1"
    smStarting "cam1" (newStream "cam1" "rtsp://fake/1")
    smAfterStartErr "cam1" cam1AfterStartErr
    (by decide) (by decide) (by decide) (by decide)

/-! ### Width and height validation (claim C9) -/

/-- A create request with a negative width that the handlers accept. -/
def negWidthReq : StartReq :=
  { streamID := "cam1", rtspURL := "rtsp://fake/1", width := -640, height := 480 }

/-- Counterexample to claim C9 as stated: with width `-640` and height
`480` the create handler answers 200 and launches the ingestor with those
values, and the computed frame size is the negative `-921600`; but no
buffer of that length is ever allocated — Go's `make([]byte, n)` panics on
a negative length, so the allocation yields no buffer at all. -/
theorem width_validation_counterexample :
    ((handleStartStream sm0 negWidthReq).1.status = 200) ∧
    ((handleStartStream sm0 negWidthReq).2.2 =
       [LaunchedTask.runFFmpeg "cam1" (-640) 480,
        LaunchedTask.distribute "cam1",
        LaunchedTask.monitorHealth "cam1" (-640) 480]) ∧
    (frameSize (-640) 480 = -921600) ∧
    (makeSlice (frameSize (-640) 480) = none) ∧
    (¬ ∃ buf : List Nat, makeSlice (frameSize (-640) 480) = some buf) := by
  refine ⟨by decide, by decide, by decide, by decide, ?_⟩
  intro hex
  obtain ⟨buf, hb⟩ := hex
  rw [show makeSlice (frameSize (-640) 480) = none from by decide] at hb
  exact Option.noConfusion hb

/-- Claim C9 (amended): the create handlers validate only that width and
height are nonzero (zero is replaced by the 640x480 default), so a
request with a nonzero non-positive width or height still answers 200,
creates the stream, and launches the ingestor with those values; the
ingestor computes the frame byte size as `width*height*3`, and when that
size is negative (exactly one of the two negative) the buffer allocation
`make([]byte, frameSize)` panics instead of allocating, while a
non-negative size allocates a buffer of that length. -/
theorem width_validation_amended (sid url : String) (wi hi : Int)
    (sm : StreamManager)
    (habs : alookup sm.streams sid = none)
    (hw : wi ≠ 0) (hh : hi ≠ 0) :
    ((handleStartStream sm ⟨sid, url, wi, hi⟩).1.status = 200) ∧
    ((handleStartStream sm ⟨sid, url, wi, hi⟩).2.2 =
       [LaunchedTask.runFFmpeg sid wi hi,
        LaunchedTask.distribute sid,
        LaunchedTask.monitorHealth sid wi hi]) ∧
    (alookup (handleStartStream sm ⟨sid, url, wi, hi⟩).2.1.streams sid =
       some (newStream sid url)) ∧
    ((handleStartStream sm ⟨sid, url, 0, 0⟩).2.2 =
       [LaunchedTask.runFFmpeg sid 640 480,
        LaunchedTask.distribute sid,
        LaunchedTask.monitorHealth sid 640 480]) ∧
    (frameSize wi hi < 0 → makeSlice (frameSize wi hi) = none) ∧
    (0 ≤ frameSize wi hi →
       makeSlice (frameSize wi hi) =
         some (List.replicate (frameSize wi hi).toNat 0)) := by
  refine ⟨?_, ?_, ?_, ?_, ?_, ?_⟩
  · simp [handleStartStream, StartStream, habs, hw, hh, jsonResp]
  · simp [handleStartStream, StartStream, habs, hw, hh]
  · simp [handleStartStream, StartStream, habs, hw, hh, alookup_aset]
  · simp [handleStartStream, StartStream, habs]
  · intro hneg
    simp [makeSlice, hneg]
  · intro hpos
    simp [makeSlice, not_lt.mpr hpos]

/-- Witness for the amended claim C9 at the concrete negative-width
request. -/
theorem width_validation_amended_witness :
    (((handleStartStream sm0 ⟨"cam1", "rtsp://fake/1", -640, 480⟩).1.status = 200) ∧
    ((handleStartStream sm0 ⟨"cam1", "rtsp://fake/1", -640, 480⟩).2.2 =
       [LaunchedTask.runFFmpeg "cam1" (-640) 480,
        LaunchedTask.distribute "cam1",
        LaunchedTask.monitorHealth "cam1" (-640) 480]) ∧
    (alookup (handleStartStream sm0 ⟨"cam1", "rtsp://fake/1", -640, 480⟩).2.1.streams "cam1" =
       some (newStream "cam1" "rtsp://fake/1")) ∧
    ((handleStartStream sm0 ⟨"cam1", "rtsp://fake/1", 0, 0⟩).2.2 =
       [LaunchedTask.runFFmpeg "cam1" 640 480,
        LaunchedTask.distribute "cam1",
        LaunchedTask.monitorHealth "cam1" 640 480]) ∧
    (frameSize (-640) 480 < 0 → makeSlice (frameSize (-640) 480) = none) ∧
    (0 ≤ frameSize (-640) 480 →
       makeSlice (frameSize (-640) 480) =
         some (List.replicate (frameSize (-640) 480).toNat 0))) :=
  width_validation_amended "cam1" "rtsp://fake/1" (-640) 480 sm0
    (by decide) (by decide) (by decide)

end RTSP
